import Mathlib

/-!
Shallow embedding of `src/eventfrontend/src/components/EventManagement.jsx`.

The component is a single-threaded event-driven controller over the state
held in React `useState` hooks: the event list, the draft event being
edited, the id typed into the lookup box, the looked-up event, the status
message and the edit-mode flag.  Each handler is embedded as a pure
function on that state.  An asynchronous API call is modelled by passing
the call's outcome (`Except Unit _`, `.error` for a rejected promise) as
an explicit argument, and every handler additionally returns the list of
API requests it issued, so "performs no network request" is the statement
that this list is empty and the result does not depend on the outcome
argument.  JavaScript values that the code inspects structurally (the
list-response body, the fetched record) are embedded as a small dynamic
value type `JsVal`.
-/

/-- An event record: the five string fields of the draft object
`{ id: "", name: "", date: "", location: "", organizer: "" }`. -/
structure Event where
  id : String
  name : String
  date : String
  location : String
  organizer : String
deriving Repr, DecidableEq

/-- The all-empty event used to initialise and reset the form. -/
def emptyEvent : Event :=
  { id := "", name := "", date := "", location := "", organizer := "" }

/-- A dynamically typed JavaScript value, as far as the component inspects
one: `undefined`, `null`, booleans, numbers, strings, arrays, objects. -/
inductive JsVal where
  | jundefined : JsVal
  | jnull : JsVal
  | jbool : Bool → JsVal
  | jnum : Int → JsVal
  | jstr : String → JsVal
  | jarr : List JsVal → JsVal
  | jobj : List (String × JsVal) → JsVal
deriving Repr

/-- Embeds `Array.isArray(v)`. -/
def JsVal.isArray : JsVal → Bool
  | .jarr _ => true
  | _ => false

/-- The elements of an array value (only used under an `isArray` guard). -/
def JsVal.elems : JsVal → List JsVal
  | .jarr xs => xs
  | _ => []

/-- JavaScript truthiness of a value, as tested by `if (data && ...)`. -/
def JsVal.truthy : JsVal → Bool
  | .jundefined => false
  | .jnull => false
  | .jbool b => b
  | .jnum n => n != 0
  | .jstr s => s != ""
  | .jarr _ => true
  | .jobj _ => true

/-- First-match lookup in an object's property list. -/
def propLookup : List (String × JsVal) → String → JsVal
  | [], _ => .jundefined
  | (k, v) :: rest, key => if k = key then v else propLookup rest key

/-- Property access `v[key]`: `undefined` on non-objects (the component
only reads `.data`, which is `undefined` on the primitives it can meet). -/
def JsVal.getProp : JsVal → String → JsVal
  | .jobj fs, key => propLookup fs key
  | _, _ => .jundefined

/-- The API requests the handlers can issue, one per axios call site. -/
inductive ApiRequest where
  | getAllReq : ApiRequest
  | addReq : Event → ApiRequest
  | updateReq : Event → ApiRequest
  | deleteReq : String → ApiRequest
  | getByIdReq : String → ApiRequest
deriving Repr, DecidableEq

/-- The component state: the six `useState` hooks of `EventManagement`. -/
structure ComponentState where
  events : List JsVal
  event : Event
  idToFetch : String
  fetchedEvent : Option JsVal
  message : String
  editMode : Bool

/-- The initial state passed to the `useState` hooks. -/
def initialState : ComponentState :=
  { events := []
    event := emptyEvent
    idToFetch := ""
    fetchedEvent := none
    message := ""
    editMode := false }

/-- The loop `for (let key in event)` iterates the draft object's keys in insertion
order: the order of the initialiser. -/
def objectKeys : List String := ["id", "name", "date", "location", "organizer"]

/-- Reading a draft field by key name, `event[key]`. -/
def eventField (e : Event) : String → String
  | "id" => e.id
  | "name" => e.name
  | "date" => e.date
  | "location" => e.location
  | "organizer" => e.organizer
  | _ => ""

/-- A whitespace character, as `trim` strips it. -/
def isWsChar (c : Char) : Bool := c == ' ' || c == '\t' || c == '\n' || c == '\r'

/-- Strip leading and trailing whitespace from a character list. -/
def trimList (l : List Char) : List Char :=
  ((l.dropWhile isWsChar).reverse.dropWhile isWsChar).reverse

/-- JavaScript `s.trim()`. -/
def jsTrim (s : String) : String := ⟨trimList s.data⟩

/-- JavaScript `s.toLowerCase()` (character-wise lowering). -/
def jsToLower (s : String) : String := ⟨s.data.map Char.toLower⟩

/-- Does the first list start with the second? -/
def listStarts : List Char → List Char → Bool
  | _, [] => true
  | [], _ :: _ => false
  | c :: cs, d :: ds => c == d && listStarts cs ds

/-- Does the first list contain the second as a contiguous sublist? -/
def listHasSub : List Char → List Char → Bool
  | [], needle => listStarts [] needle
  | c :: t, needle => listStarts (c :: t) needle || listHasSub t needle

/-- JavaScript `hay.includes(sub)`. -/
def includesSub (hay sub : String) : Bool := listHasSub hay.data sub.data

/-- Message shown when the list fetch fails. -/
def fetchFailMsg : String := "Failed to fetch events. Check backend URL or CORS."

/-- Message shown after a successful add. -/
def addSuccessMsg : String := "✅ Event added successfully."

/-- Message shown after a failed add. -/
def addErrorMsg : String := "❌ Error adding event."

/-- Message shown after a successful update. -/
def updateSuccessMsg : String := "✅ Event updated successfully."

/-- Message shown after a failed update. -/
def updateErrorMsg : String := "❌ Error updating event."

/-- Message shown after a successful delete. -/
def deleteSuccessMsg : String := "🗑️ Event deleted successfully."

/-- Message shown after a failed delete. -/
def deleteErrorMsg : String := "❌ Error deleting event."

/-- Warning shown when the lookup id box is empty. -/
def enterIdMsg : String := "⚠️ Enter an event ID to fetch."

/-- Message shown when the lookup request fails. -/
def notFoundMsg : String := "❌ Event not found."

/-- Informational message set by `handleEdit`. -/
def editingMsg (id : String) : String := "✏️ Editing event with ID " ++ id

/-- Validation message naming the offending field. -/
def fillFieldMsg (key : String) : String := "Please fill out the " ++ key ++ " field."

/-- The loop body of `validateForm`: walk the keys in object order and
return the first key whose value is falsy or trims to empty. -/
def validateLoop (e : Event) : List String → Option String
  | [] => none
  | k :: ks =>
      let v := eventField e k
      if v == "" || jsTrim v == "" then some k else validateLoop e ks

/-- Embeds `validateForm`: on the first offending key, set the message and return
`false`; otherwise return `true` with the state untouched. -/
def validateForm (s : ComponentState) : Bool × ComponentState :=
  match validateLoop s.event objectKeys with
  | some k => (false, { s with message := fillFieldMsg k })
  | none => (true, s)

/-- Embeds `fetchAllEvents`: on success, accept a bare array, or an envelope whose
`data` property is an array, and otherwise fall back to the empty list with
no message; on failure, set the failure message and the empty list. -/
def fetchAllEvents (res : Except Unit JsVal) (s : ComponentState) :
    ComponentState × List ApiRequest :=
  match res with
  | .ok data =>
      if data.isArray then
        ({ s with events := data.elems }, [.getAllReq])
      else if data.truthy && (data.getProp "data").isArray then
        ({ s with events := (data.getProp "data").elems }, [.getAllReq])
      else
        ({ s with events := [] }, [.getAllReq])
  | .error _ =>
      ({ s with message := fetchFailMsg, events := [] }, [.getAllReq])

/-- Field update of `handleChange`: `{ ...event, [name]: value }`. -/
def setField (e : Event) : String → String → Event
  | "id", v => { e with id := v }
  | "name", v => { e with name := v }
  | "date", v => { e with date := v }
  | "location", v => { e with location := v }
  | "organizer", v => { e with organizer := v }
  | _, _ => e

/-- Embeds `handleChange`: update one field of the draft. -/
def handleChange (name value : String) (s : ComponentState) : ComponentState :=
  { s with event := setField s.event name value }

/-- Embeds `resetForm`: clear the draft and leave edit mode. -/
def resetForm (s : ComponentState) : ComponentState :=
  { s with event := emptyEvent, editMode := false }

/-- Embeds `handleEdit`: load the record into the form, enter edit mode, announce. -/
def handleEdit (e : Event) (s : ComponentState) : ComponentState :=
  { s with event := e, editMode := true, message := editingMsg e.id }

/-- Embeds `handleAddEvent`: validate, then POST the draft; on success set the
success message, refresh the list and reset the form; on failure set the
error message. -/
def handleAddEvent (addRes : Except Unit Unit) (listRes : Except Unit JsVal)
    (s : ComponentState) : ComponentState × List ApiRequest :=
  match validateForm s with
  | (false, s1) => (s1, [])
  | (true, s1) =>
      match addRes with
      | .ok _ =>
          let s2 := { s1 with message := addSuccessMsg }
          let r := fetchAllEvents listRes s2
          (resetForm r.1, .addReq s1.event :: r.2)
      | .error _ => ({ s1 with message := addErrorMsg }, [.addReq s1.event])

/-- Embeds `handleUpdateEvent`: validate, then PUT the draft; on success set the
success message, refresh the list and reset the form; on failure set the
error message. -/
def handleUpdateEvent (updRes : Except Unit Unit) (listRes : Except Unit JsVal)
    (s : ComponentState) : ComponentState × List ApiRequest :=
  match validateForm s with
  | (false, s1) => (s1, [])
  | (true, s1) =>
      match updRes with
      | .ok _ =>
          let s2 := { s1 with message := updateSuccessMsg }
          let r := fetchAllEvents listRes s2
          (resetForm r.1, .updateReq s1.event :: r.2)
      | .error _ => ({ s1 with message := updateErrorMsg }, [.updateReq s1.event])

/-- Embeds `handleDeleteEvent`: DELETE by id; on success set the success message
and refresh the list; on failure set the error message. -/
def handleDeleteEvent (id : String) (delRes : Except Unit Unit)
    (listRes : Except Unit JsVal) (s : ComponentState) :
    ComponentState × List ApiRequest :=
  match delRes with
  | .ok _ =>
      let s2 := { s with message := deleteSuccessMsg }
      let r := fetchAllEvents listRes s2
      (r.1, .deleteReq id :: r.2)
  | .error _ => ({ s with message := deleteErrorMsg }, [.deleteReq id])

/-- Embeds `handleFetchById`: bail out with a warning on an empty id; otherwise GET
the record and either store it (clearing the message) or record absence with
the not-found message. -/
def handleFetchById (getRes : Except Unit JsVal) (s : ComponentState) :
    ComponentState × List ApiRequest :=
  if s.idToFetch = "" then
    ({ s with message := enterIdMsg }, [])
  else
    match getRes with
    | .ok d => ({ s with fetchedEvent := some d, message := "" }, [.getByIdReq s.idToFetch])
    | .error _ =>
        ({ s with fetchedEvent := none, message := notFoundMsg }, [.getByIdReq s.idToFetch])

/-- The banner's severity class:
`message.toLowerCase().includes("error") ? "error" : "success"`. -/
def severity (m : String) : String :=
  if includesSub (jsToLower m) "error" then "error" else "success"

/-- A sample fully filled-in event used by concrete witnesses. -/
def sampleEvent : Event :=
  { id := "1", name := "Launch", date := "2025-01-01", location := "HQ", organizer := "Alice" }

/-- A component state whose draft is the fully filled-in sample event. -/
def validState : ComponentState := { initialState with event := sampleEvent }

/-- The falsiness test of the loop collapses to the trim test: an empty
string trims to itself. -/
lemma falsyOrTrim (v : String) : (v == "" || jsTrim v == "") = (jsTrim v == "") := by
  cases h : v == "" with
  | true =>
      rw [beq_iff_eq] at h
      subst h
      rfl
  | false => simp

/-- The validation loop accepts exactly the drafts whose listed fields are
all non-empty after trimming. -/
lemma validateLoop_none_iff (e : Event) (ks : List String) :
    validateLoop e ks = none ↔ ∀ k ∈ ks, jsTrim (eventField e k) ≠ "" := by
  induction ks with
  | nil => simp [validateLoop]
  | cons k ks ih =>
      simp only [validateLoop, falsyOrTrim]
      by_cases h : jsTrim (eventField e k) = ""
      · simp [h]
      · simp [h, ih]

/-- A key returned by the validation loop is one of the listed keys and its
field is empty after trimming. -/
lemma validateLoop_some (e : Event) (ks : List String) (k : String)
    (h : validateLoop e ks = some k) : k ∈ ks ∧ jsTrim (eventField e k) = "" := by
  induction ks with
  | nil => simp [validateLoop] at h
  | cons a ks ih =>
      simp only [validateLoop, falsyOrTrim] at h
      by_cases ha : jsTrim (eventField e a) = ""
      · simp [ha] at h
        subst h
        exact ⟨List.mem_cons_self a ks, ha⟩
      · simp [ha] at h
        obtain ⟨hm, he⟩ := ih h
        exact ⟨List.mem_cons_of_mem a hm, he⟩

/-- A draft with some empty-after-trim field makes the validation loop
return some offending key. -/
lemma validateLoop_of_empty (s : ComponentState)
    (h : ∃ k ∈ objectKeys, jsTrim (eventField s.event k) = "") :
    ∃ k, validateLoop s.event objectKeys = some k := by
  cases hv : validateLoop s.event objectKeys with
  | some k => exact ⟨k, rfl⟩
  | none =>
      rw [validateLoop_none_iff] at hv
      obtain ⟨k, hk, he⟩ := h
      exact absurd he (hv k hk)

/-- The list refresh never touches the draft, the edit-mode flag, the
looked-up record or the lookup id box. -/
lemma fetchAllEvents_frame (res : Except Unit JsVal) (s : ComponentState) :
    (fetchAllEvents res s).1.event = s.event ∧
    (fetchAllEvents res s).1.editMode = s.editMode ∧
    (fetchAllEvents res s).1.fetchedEvent = s.fetchedEvent ∧
    (fetchAllEvents res s).1.idToFetch = s.idToFetch := by
  cases res with
  | ok d => simp only [fetchAllEvents]; split_ifs <;> simp
  | error e => simp [fetchAllEvents]

/-- C1: for every draft with some field empty after trimming, both
`handleAddEvent` and `handleUpdateEvent` issue no API request — whatever
outcome the network would have produced — and return after setting only the
validation message. -/
theorem invalid_draft_no_api_call (s : ComponentState)
    (h : ∃ k ∈ objectKeys, jsTrim (eventField s.event k) = "") :
    ∀ (r : Except Unit Unit) (l : Except Unit JsVal),
      (handleAddEvent r l s).2 = [] ∧ (handleUpdateEvent r l s).2 = [] ∧
      ∃ k, jsTrim (eventField s.event k) = "" ∧
        (handleAddEvent r l s).1 = { s with message := fillFieldMsg k } ∧
        (handleUpdateEvent r l s).1 = { s with message := fillFieldMsg k } := by
  intro r l
  obtain ⟨k, hk⟩ := validateLoop_of_empty s h
  have hemp := (validateLoop_some s.event objectKeys k hk).2
  refine ⟨?_, ?_, k, hemp, ?_, ?_⟩ <;>
    simp [handleAddEvent, handleUpdateEvent, validateForm, hk]

/-- Witness for C1: on the initial (all-empty) draft, add and update with a
would-be-successful network issue no request and only set the validation
message. -/
theorem invalid_draft_no_api_call_witness :
    (handleAddEvent (.ok ()) (.ok (.jarr [])) initialState).2 = [] ∧
    (handleUpdateEvent (.ok ()) (.ok (.jarr [])) initialState).2 = [] ∧
    ∃ k, jsTrim (eventField initialState.event k) = "" ∧
      (handleAddEvent (.ok ()) (.ok (.jarr [])) initialState).1
          = { initialState with message := fillFieldMsg k } ∧
      (handleUpdateEvent (.ok ()) (.ok (.jarr [])) initialState).1
          = { initialState with message := fillFieldMsg k } :=
  invalid_draft_no_api_call initialState ⟨"id", by decide, by decide⟩
    (.ok ()) (.ok (.jarr []))

/-- C2: `validateForm` succeeds exactly when all five fields are non-empty
after trimming, and otherwise names the first empty-after-trim field in the
canonical order id, name, date, location, organizer. -/
theorem validateForm_firstEmpty (s : ComponentState) :
    validateForm s =
      (if jsTrim s.event.id = "" then (false, { s with message := fillFieldMsg "id" })
       else if jsTrim s.event.name = "" then (false, { s with message := fillFieldMsg "name" })
       else if jsTrim s.event.date = "" then (false, { s with message := fillFieldMsg "date" })
       else if jsTrim s.event.location = "" then
         (false, { s with message := fillFieldMsg "location" })
       else if jsTrim s.event.organizer = "" then
         (false, { s with message := fillFieldMsg "organizer" })
       else (true, s)) := by
  simp only [validateForm, objectKeys, validateLoop, eventField, falsyOrTrim]
  by_cases h1 : jsTrim s.event.id = "" <;>
  by_cases h2 : jsTrim s.event.name = "" <;>
  by_cases h3 : jsTrim s.event.date = "" <;>
  by_cases h4 : jsTrim s.event.location = "" <;>
  by_cases h5 : jsTrim s.event.organizer = "" <;>
  simp [h1, h2, h3, h4, h5]

/-- C3: on a bare-array response the list becomes that array; on an object
whose `data` property is an array it becomes that inner array; on any other
successful shape it becomes empty with no message set; on a failed request
it becomes empty and the failure message (a non-empty string) is set. -/
theorem fetchAll_response_shapes (s : ComponentState) :
    (∀ xs : List JsVal,
       fetchAllEvents (.ok (.jarr xs)) s = ({ s with events := xs }, [.getAllReq])) ∧
    (∀ (fs : List (String × JsVal)) (xs : List JsVal),
       propLookup fs "data" = .jarr xs →
       fetchAllEvents (.ok (.jobj fs)) s = ({ s with events := xs }, [.getAllReq])) ∧
    (∀ v : JsVal, v.isArray = false → (v.getProp "data").isArray = false →
       fetchAllEvents (.ok v) s = ({ s with events := [] }, [.getAllReq])) ∧
    (fetchAllEvents (.error ()) s
        = ({ s with events := [], message := fetchFailMsg }, [.getAllReq])
      ∧ fetchFailMsg ≠ "") := by
  refine ⟨?_, ?_, ?_, rfl, by decide⟩
  · intro xs
    simp [fetchAllEvents, JsVal.isArray, JsVal.elems]
  · intro fs xs hl
    simp [fetchAllEvents, JsVal.isArray, JsVal.truthy, JsVal.getProp, hl, JsVal.elems]
  · intro v hv hd
    simp [fetchAllEvents, hv, hd]

/-- Witness for C3: an envelope response yields its inner array; a numeric
response yields the empty list with no message. -/
theorem fetchAll_response_shapes_witness :
    fetchAllEvents (.ok (.jobj [("data", .jarr [.jnum 1])])) initialState
        = ({ initialState with events := [.jnum 1] }, [.getAllReq]) ∧
    fetchAllEvents (.ok (.jnum 5)) initialState
        = ({ initialState with events := [] }, [.getAllReq]) :=
  ⟨(fetchAll_response_shapes initialState).2.1 _ _ rfl,
   (fetchAll_response_shapes initialState).2.2.1 _ rfl rfl⟩

/-- C4: on a valid draft whose add or update request fails, the handler sets
only the error message: events, draft, mode, lookup result and lookup box
are all exactly as before. -/
theorem valid_draft_atomic_on_error (s : ComponentState)
    (h : ∀ k ∈ objectKeys, jsTrim (eventField s.event k) ≠ "") (l : Except Unit JsVal) :
    handleAddEvent (.error ()) l s = ({ s with message := addErrorMsg }, [.addReq s.event]) ∧
    handleUpdateEvent (.error ()) l s
      = ({ s with message := updateErrorMsg }, [.updateReq s.event]) := by
  have hv : validateLoop s.event objectKeys = none := (validateLoop_none_iff s.event objectKeys).2 h
  constructor <;> simp [handleAddEvent, handleUpdateEvent, validateForm, hv]

/-- Witness for C4: a failed add and a failed update on the sample draft
change nothing but the message. -/
theorem valid_draft_atomic_on_error_witness :
    handleAddEvent (.error ()) (.ok (.jarr [])) validState
        = ({ validState with message := addErrorMsg }, [.addReq validState.event]) ∧
    handleUpdateEvent (.error ()) (.ok (.jarr [])) validState
        = ({ validState with message := updateErrorMsg }, [.updateReq validState.event]) :=
  valid_draft_atomic_on_error validState (by decide) (.ok (.jarr []))

/-- C5: with an empty lookup id `handleFetchById` issues no request and sets
the warning message; with a non-empty id, a successful response is stored in
the lookup slot and the message is cleared, and a failed response records
absence and sets the not-found message. -/
theorem fetchById_spec (s : ComponentState) :
    (s.idToFetch = "" →
       ∀ res : Except Unit JsVal, (handleFetchById res s).2 = [] ∧
         handleFetchById res s = ({ s with message := enterIdMsg }, [])) ∧
    (s.idToFetch ≠ "" →
       (∀ d : JsVal, handleFetchById (.ok d) s
           = ({ s with fetchedEvent := some d, message := "" }, [.getByIdReq s.idToFetch])) ∧
       handleFetchById (.error ()) s
           = ({ s with fetchedEvent := none, message := notFoundMsg },
              [.getByIdReq s.idToFetch])) := by
  constructor
  · intro he res
    simp [handleFetchById, he]
  · intro hne
    constructor
    · intro d
      simp [handleFetchById, hne]
    · simp [handleFetchById, hne]

/-- Witness for C5: the empty-id warning path at the initial state, and a
failed lookup at id 7. -/
theorem fetchById_spec_witness :
    ((handleFetchById (.ok (.jstr "x")) initialState).2 = [] ∧
      handleFetchById (.ok (.jstr "x")) initialState
        = ({ initialState with message := enterIdMsg }, [])) ∧
    handleFetchById (.error ()) { initialState with idToFetch := "7" }
        = ({ initialState with idToFetch := "7", fetchedEvent := none, message := notFoundMsg },
           [.getByIdReq "7"]) :=
  ⟨(fetchById_spec initialState).1 rfl (.ok (.jstr "x")),
   ((fetchById_spec { initialState with idToFetch := "7" }).2 (by decide)).2⟩

/-- C6: `handleEdit` enters edit mode holding the selected record;
`resetForm` returns to create mode with the empty draft from any state; and
a successful add or update on a valid draft lands in create mode with the
draft cleared. -/
theorem mode_state_machine (s : ComponentState) (e : Event) (l : Except Unit JsVal) :
    (handleEdit e s).editMode = true ∧ (handleEdit e s).event = e ∧
    (resetForm s).editMode = false ∧ (resetForm s).event = emptyEvent ∧
    ((∀ k ∈ objectKeys, jsTrim (eventField s.event k) ≠ "") →
      (handleAddEvent (.ok ()) l s).1.editMode = false ∧
      (handleAddEvent (.ok ()) l s).1.event = emptyEvent ∧
      (handleUpdateEvent (.ok ()) l s).1.editMode = false ∧
      (handleUpdateEvent (.ok ()) l s).1.event = emptyEvent) := by
  refine ⟨rfl, rfl, rfl, rfl, ?_⟩
  intro h
  have hv : validateLoop s.event objectKeys = none := (validateLoop_none_iff s.event objectKeys).2 h
  simp [handleAddEvent, handleUpdateEvent, validateForm, hv, resetForm]

/-- Witness for C6: a successful add on the sample draft clears the form and
leaves create mode. -/
theorem mode_state_machine_witness :
    (handleAddEvent (.ok ()) (.ok (.jarr [])) validState).1.editMode = false ∧
    (handleAddEvent (.ok ()) (.ok (.jarr [])) validState).1.event = emptyEvent :=
  ⟨((mode_state_machine validState sampleEvent (.ok (.jarr []))).2.2.2.2 (by decide)).1,
   ((mode_state_machine validState sampleEvent (.ok (.jarr []))).2.2.2.2 (by decide)).2.1⟩

/-- C7 counterexample: the not-found failure message set by a failed lookup
does not contain the substring error, so the banner derives success
severity for it — and likewise for the list-fetch failure message — refuting
the claim that every failure completion is classified with error severity. -/
theorem severity_misclassifies_not_found :
    (handleFetchById (.error ()) { initialState with idToFetch := "7" }).1.message
        = notFoundMsg ∧
    severity notFoundMsg = "success" ∧ severity notFoundMsg ≠ "error" ∧
    severity fetchFailMsg = "success" :=
  ⟨rfl, by decide, by decide, by decide⟩

/-- C7 amended: severity is a pure substring test for error on the lowered
message text; the add-, update- and delete-failure messages classify as
error, while the list-fetch-failure and not-found messages classify as
success despite reporting failures, and all success and informational
messages classify as success. -/
theorem severity_by_substring :
    severity addErrorMsg = "error" ∧ severity updateErrorMsg = "error" ∧
    severity deleteErrorMsg = "error" ∧
    severity addSuccessMsg = "success" ∧ severity updateSuccessMsg = "success" ∧
    severity deleteSuccessMsg = "success" ∧
    severity fetchFailMsg = "success" ∧ severity notFoundMsg = "success" ∧
    severity enterIdMsg = "success" := by
  decide

/-- C8: every operation other than a fetch-by-id attempt preserves the
looked-up record slot, on success and failure alike. -/
theorem lookup_only_changed_by_fetchById (s : ComponentState) (k v : String) (e : Event)
    (id : String) (r : Except Unit Unit) (l : Except Unit JsVal) :
    (handleChange k v s).fetchedEvent = s.fetchedEvent ∧
    ((validateForm s).2).fetchedEvent = s.fetchedEvent ∧
    (handleEdit e s).fetchedEvent = s.fetchedEvent ∧
    (resetForm s).fetchedEvent = s.fetchedEvent ∧
    ((handleAddEvent r l s).1).fetchedEvent = s.fetchedEvent ∧
    ((handleUpdateEvent r l s).1).fetchedEvent = s.fetchedEvent ∧
    ((handleDeleteEvent id r l s).1).fetchedEvent = s.fetchedEvent ∧
    ((fetchAllEvents l s).1).fetchedEvent = s.fetchedEvent := by
  have hfa := fun s' => (fetchAllEvents_frame l s').2.2.1
  refine ⟨rfl, ?_, rfl, rfl, ?_, ?_, ?_, hfa s⟩
  · cases hv : validateLoop s.event objectKeys <;> simp [validateForm, hv]
  · cases hv : validateLoop s.event objectKeys <;>
      cases r <;> simp [handleAddEvent, validateForm, hv, resetForm, hfa]
  · cases hv : validateLoop s.event objectKeys <;>
      cases r <;> simp [handleUpdateEvent, validateForm, hv, resetForm, hfa]
  · cases r <;> simp [handleDeleteEvent, hfa]

/-- C9: deletion preserves the draft and the edit-mode flag on success and
failure, so deleting the record being edited never resets the form. -/
theorem delete_preserves_draft_and_mode (s : ComponentState) (id : String)
    (r : Except Unit Unit) (l : Except Unit JsVal) :
    ((handleDeleteEvent id r l s).1).event = s.event ∧
    ((handleDeleteEvent id r l s).1).editMode = s.editMode := by
  cases r <;>
    simp [handleDeleteEvent, (fetchAllEvents_frame l _).1, (fetchAllEvents_frame l _).2.1]

/-- C10: the empty-id warning path of `handleFetchById` preserves the
looked-up record slot. -/
theorem fetchById_empty_preserves_lookup (s : ComponentState) (res : Except Unit JsVal)
    (h : s.idToFetch = "") :
    ((handleFetchById res s).1).fetchedEvent = s.fetchedEvent := by
  simp [handleFetchById, h]

/-- Witness for C10: with an empty id box, a previously fetched record
survives the warning path. -/
theorem fetchById_empty_preserves_lookup_witness :
    ((handleFetchById (.error ())
        { initialState with fetchedEvent := some (.jstr "e") }).1).fetchedEvent
      = some (.jstr "e") :=
  fetchById_empty_preserves_lookup
    { initialState with fetchedEvent := some (.jstr "e") } (.error ()) rfl
